import Mathlib

/-!
Verification model of the VAPI widget core: the `WidgetController` state
machine and its supporting `ConversationHistory`, `VoiceSession` and
`ChatSession` components.  The repository ships only documentation
(`NOTES.md`) and build configuration; the component/hook implementation
(`src/components/VapiWidget.tsx`, `useVapiCall`, `useVapiChat`) is not part
of the source tree, so every definition below is modelled from the
specification's description of that missing code.
-/

namespace VapiWidget

/-- Modelled from the spec: `Message.role` — enum {user, assistant, system}
(spec §3, "Message"). The implementing component `VapiWidget.tsx` is missing
from the source tree. -/
inductive Role where
  | user
  | assistant
  | system
deriving DecidableEq

/-- Modelled from the spec: `Message.source` — which channel produced the
message, enum {voice, chat} (spec §3). -/
inductive Source where
  | voice
  | chat
deriving DecidableEq

/-- Modelled from the spec: one conversational turn (spec §3, "Message"):
role, source channel, text content and monotone creation time. Messages are
immutable once created. -/
structure Message where
  role : Role
  source : Source
  content : String
  timestamp : Nat
deriving DecidableEq

/-- Modelled from the spec: `ConversationHistory` — ordered sequence of
`Message`, insertion order = chronological order (spec §3, §4.2). The
owning component is missing from the source tree. -/
structure ConversationHistory where
  messages : List Message
deriving DecidableEq

namespace ConversationHistory

/-- Modelled from the spec: history is created empty on widget mount
(spec §3, lifecycle). -/
def empty : ConversationHistory := ⟨[]⟩

/-- Modelled from the spec: `append(message)` — append-only insertion at the
end of the ordered sequence (spec §4.2). -/
def append (h : ConversationHistory) (m : Message) : ConversationHistory :=
  ⟨h.messages ++ [m]⟩

/-- Modelled from the spec: `clear()` — replace the history with the empty
sequence (spec §4.2, O(1) conceptually). -/
def clear (_h : ConversationHistory) : ConversationHistory := ⟨[]⟩

/-- Modelled from the spec: `snapshot()` — read-only ordered view of the
messages (spec §4.2). -/
def snapshot (h : ConversationHistory) : List Message := h.messages

/-- A sequence of `append(m)` calls, in call order. -/
def appendAll (h : ConversationHistory) (ms : List Message) : ConversationHistory :=
  ms.foldl append h

end ConversationHistory

/-- Modelled from the spec: `CallStatus` of `VoiceSession` — enum
{idle, connecting, active, ending, error} (spec §3). -/
inductive CallStatus where
  | idle
  | connecting
  | active
  | ending
  | error
deriving DecidableEq

/-- A call is live when `stop()` is valid for it: from `connecting` or
`active` (spec §3, `CallStatus` invariant). -/
def CallStatus.isLive : CallStatus → Bool
  | .connecting => true
  | .active => true
  | _ => false

/-- Modelled from the spec: `ChatStatus` of `ChatSession` — enum
{idle, sending, error} (spec §3). -/
inductive ChatStatus where
  | idle
  | sending
  | error
deriving DecidableEq

/-- Modelled from the spec: the error taxonomy of §7:
ConfigurationError, PermissionError, ConnectionError, BusyError,
TimeoutError. -/
inductive WidgetError where
  | ConfigurationError
  | PermissionError
  | ConnectionError
  | BusyError
  | TimeoutError
deriving DecidableEq

/-- Modelled from the spec: `VoiceSession` adapter state — wraps the call
lifecycle of the external SDK, exposing the current call status (spec §4.3).
The adapter implementation (`useVapiCall`) is missing from the source
tree. -/
structure VoiceSession where
  status : CallStatus
deriving DecidableEq

/-- Modelled from the spec: `VoiceSession.stop()` — valid (and effective)
only from `connecting`/`active`; calling when not active is a no-op
(spec §3 invariant and §4.3 "idempotent"). -/
def VoiceSession.stop (v : VoiceSession) : VoiceSession :=
  if v.status.isLive then ⟨CallStatus.idle⟩ else v

/-- Modelled from the spec: `ChatSession` adapter state — tracks the
in-flight/typing status (spec §4.4). The adapter implementation
(`useVapiChat`) is missing from the source tree. -/
structure ChatSession where
  status : ChatStatus
deriving DecidableEq

/-- Modelled from the spec: `ChatSession.send(text)` — at most one
outstanding send per session; a second call while one is outstanding fails
with `BusyError` rather than being queued or silently dropped (spec §4.4).
On success the session enters the `sending` status. -/
def ChatSession.send (c : ChatSession) (_text : String) :
    Except WidgetError ChatSession :=
  match c.status with
  | .sending => Except.error WidgetError.BusyError
  | _ => Except.ok ⟨ChatStatus.sending⟩

/-- Modelled from the spec: the reachable controller states of §4.1:
`Collapsed`, `ExpandedAwaitingConsent`, `ExpandedIdle`,
`ExpandedVoiceActive`, `ExpandedChatSending`. -/
inductive UIState where
  | Collapsed
  | ExpandedAwaitingConsent
  | ExpandedIdle
  | ExpandedVoiceActive
  | ExpandedChatSending
deriving DecidableEq

/-- The expanded states (everything but `Collapsed`), the "any Expanded*"
rows of the transition table (spec §4.1). -/
def UIState.isExpanded : UIState → Bool
  | .Collapsed => false
  | _ => true

/-- Leaving an intermediate (operation-in-flight) state for `ExpandedIdle`;
other states are unaffected.  Used by the error policy of §4.1: an error
"returns the state machine to `ExpandedIdle` (never a stuck state)". -/
def UIState.exitIntermediate : UIState → UIState
  | .ExpandedVoiceActive => .ExpandedIdle
  | .ExpandedChatSending => .ExpandedIdle
  | u => u

/-- Modelled from the spec: interaction mode, fixed per widget instance
(spec §3, `WidgetState.mode`). -/
inductive Mode where
  | voice
  | chat
  | hybrid
deriving DecidableEq

/-- Modelled from the spec: widget size configuration, `size` ∈
{tiny, compact, full} (spec §6); `NOTES.md` "Tiny Mode (Voice Only)"
documents that the tiny floating button is a direct voice toggle without an
expanded view. -/
inductive Size where
  | tiny
  | compact
  | full
deriving DecidableEq

/-- Modelled from the spec: the configuration surface relevant to the state
machine — `mode`, `size` and `requireConsent` (spec §6); the remaining
configuration (keys, colors, labels) does not influence transitions. -/
structure Config where
  mode : Mode
  size : Size
  requireConsent : Bool
deriving DecidableEq

/-- Which channel an outstanding (suspended) operation belongs to:
a voice call or a chat send (spec §5, suspension points). -/
inductive OpKind where
  | voice
  | chat
deriving DecidableEq

/-- An outstanding operation: its freshness token and its channel.  Tokens
identify one started operation, so that a completion arriving after
cancellation can be recognised as stale and discarded (spec §5,
cancellation). -/
structure PendingOp where
  tok : Nat
  kind : OpKind
deriving DecidableEq

/-- Modelled from the spec: the `WidgetState` owned by `WidgetController`
(spec §3): the UI state of §4.1, the consent state (`none` = undecided,
distinct from an explicit `some false` = declined), the conversation
history, the composed call/chat status, the outstanding operation (at most
one, spec §5) with a fresh-token counter, and the active channel in hybrid
operation.  The controller implementation is missing from the source
tree. -/
structure WidgetState where
  ui : UIState
  consent : Option Bool
  history : ConversationHistory
  callStatus : CallStatus
  chatStatus : ChatStatus
  pending : Option PendingOp
  nextToken : Nat
  channel : Source
deriving DecidableEq

/-- Modelled from the spec: the widget mounts collapsed with an empty
history and no operation outstanding; the stored consent value (if any) is
read from the `ConsentStore` (spec §3 lifecycle, §2). -/
def initState (storedConsent : Option Bool) : WidgetState :=
  { ui := UIState.Collapsed
    consent := storedConsent
    history := ConversationHistory.empty
    callStatus := CallStatus.idle
    chatStatus := ChatStatus.idle
    pending := none
    nextToken := 0
    channel := Source.chat }

/-- Modelled from the spec: consent gating — an operation may be initiated
only when consent is not required or has been granted (spec §3,
`WidgetState` invariant). -/
abbrev consentOk (cfg : Config) (s : WidgetState) : Prop :=
  cfg.requireConsent = false ∨ s.consent = some true

/-- Modelled from the spec: the discrete events the controller reacts to —
user interactions (click, consent, start voice, send text, switch channel,
reset, close) and adapter callbacks (call ended, voice error, final
transcript fragment, chat reply, chat send failure), spec §4.1 and §5.
Adapter callbacks carry the token of the operation they complete. -/
inductive Event where
  | clickButton
  | grantConsent
  | declineConsent
  | startVoice
  | callEnded (tok : Nat)
  | voiceErrored (tok : Nat) (err : WidgetError)
  | transcriptFinal (tok : Nat) (role : Role) (text : String) (ts : Nat)
  | sendChat (text : String) (ts : Nat)
  | replyReceived (tok : Nat) (text : String) (ts : Nat)
  | chatSendFailed (tok : Nat) (err : WidgetError)
  | switchChannel
  | clickReset
  | clickClose
deriving DecidableEq

/-- Modelled from the spec: the observable side effects of a transition —
the notification callbacks `onError`, `onCallStart`, `onCallEnd`,
`onMessage` (spec §6), requests issued to the adapters
(`VoiceSession.start`, `VoiceSession.stop`, `ChatSession.send`), and the
`ConsentStore` write (spec §4.1 side-effect column). -/
inductive Effect where
  | onError (err : WidgetError)
  | onCallStart
  | onCallEnd
  | onMessage (m : Message)
  | voiceStartRequested
  | voiceStopRequested
  | chatSendRequested (text : String)
  | persistConsent
deriving DecidableEq

/-- Modelled from the spec: "if voice active, stop it" (spec §4.1 reset and
close rows): request `VoiceSession.stop()` when the call is live, dropping
the outstanding operation; a no-op otherwise (spec §4.3, `stop()` is
idempotent). -/
def stopVoiceOp (s : WidgetState) : WidgetState × List Effect :=
  if s.callStatus.isLive then
    ({ s with callStatus := CallStatus.idle, pending := none },
      [Effect.voiceStopRequested])
  else (s, [])

/-- Modelled from the spec: the `WidgetController` transition function,
the state machine of §4.1 together with the cancellation rule of §5 (a
completion whose token does not match the outstanding operation is stale
and is discarded) and the tiny-size behavior of `NOTES.md` ("Direct voice
toggle without expanded view").  The controller implementation
(`VapiWidget.tsx`) is missing from the source tree. -/
def step (cfg : Config) (s : WidgetState) (e : Event) :
    WidgetState × List Effect :=
  match e with
  | .clickButton =>
      match cfg.size with
      | .tiny =>
          if s.callStatus.isLive then stopVoiceOp s
          else if consentOk cfg s then
            ({ s with callStatus := CallStatus.connecting,
                      pending := some ⟨s.nextToken, OpKind.voice⟩,
                      nextToken := s.nextToken + 1 },
              [Effect.voiceStartRequested])
          else (s, [])
      | _ =>
          if s.ui = UIState.Collapsed then
            if cfg.requireConsent = true ∧ s.consent ≠ some true then
              ({ s with ui := UIState.ExpandedAwaitingConsent }, [])
            else
              ({ s with ui := UIState.ExpandedIdle }, [])
          else (s, [])
  | .grantConsent =>
      if s.ui = UIState.ExpandedAwaitingConsent then
        ({ s with ui := UIState.ExpandedIdle, consent := some true },
          [Effect.persistConsent])
      else (s, [])
  | .declineConsent =>
      if s.ui = UIState.ExpandedAwaitingConsent then
        ({ s with ui := UIState.Collapsed, consent := some false }, [])
      else (s, [])
  | .startVoice =>
      if s.ui = UIState.ExpandedIdle ∧ cfg.mode ≠ Mode.chat ∧ consentOk cfg s then
        ({ s with ui := UIState.ExpandedVoiceActive,
                  callStatus := CallStatus.connecting,
                  pending := some ⟨s.nextToken, OpKind.voice⟩,
                  nextToken := s.nextToken + 1 },
          [Effect.voiceStartRequested])
      else (s, [])
  | .callEnded tok =>
      if s.pending = some ⟨tok, OpKind.voice⟩ then
        ({ s with ui := s.ui.exitIntermediate,
                  callStatus := CallStatus.idle, pending := none },
          [Effect.voiceStopRequested, Effect.onCallEnd])
      else (s, [])
  | .voiceErrored tok err =>
      if s.pending = some ⟨tok, OpKind.voice⟩ then
        ({ s with ui := s.ui.exitIntermediate,
                  callStatus := CallStatus.idle, pending := none },
          [Effect.onError err])
      else (s, [])
  | .transcriptFinal tok role text ts =>
      if s.pending = some ⟨tok, OpKind.voice⟩ then
        ({ s with history := s.history.append ⟨role, Source.voice, text, ts⟩ },
          [])
      else (s, [])
  | .sendChat text ts =>
      if s.ui = UIState.ExpandedIdle ∧ cfg.mode ≠ Mode.voice ∧ consentOk cfg s then
        ({ s with ui := UIState.ExpandedChatSending,
                  chatStatus := ChatStatus.sending,
                  history := s.history.append ⟨Role.user, Source.chat, text, ts⟩,
                  pending := some ⟨s.nextToken, OpKind.chat⟩,
                  nextToken := s.nextToken + 1 },
          [Effect.chatSendRequested text])
      else (s, [])
  | .replyReceived tok text ts =>
      if s.pending = some ⟨tok, OpKind.chat⟩ then
        ({ s with ui := s.ui.exitIntermediate,
                  chatStatus := ChatStatus.idle, pending := none,
                  history := s.history.append ⟨Role.assistant, Source.chat, text, ts⟩ },
          [Effect.onMessage ⟨Role.assistant, Source.chat, text, ts⟩])
      else (s, [])
  | .chatSendFailed tok err =>
      if s.pending = some ⟨tok, OpKind.chat⟩ then
        ({ s with ui := s.ui.exitIntermediate,
                  chatStatus := ChatStatus.idle, pending := none },
          [Effect.onError err])
      else (s, [])
  | .switchChannel =>
      if cfg.mode = Mode.hybrid ∧ s.ui = UIState.ExpandedIdle then
        ({ s with history := s.history.clear,
                  channel := match s.channel with
                             | Source.voice => Source.chat
                             | Source.chat => Source.voice },
          [])
      else (s, [])
  | .clickReset =>
      if s.ui.isExpanded then
        let r := stopVoiceOp s
        ({ r.1 with ui := UIState.ExpandedIdle, history := s.history.clear,
                    chatStatus := ChatStatus.idle, pending := none },
          r.2)
      else (s, [])
  | .clickClose =>
      if s.ui.isExpanded then
        let r := stopVoiceOp s
        ({ r.1 with ui := UIState.Collapsed,
                    chatStatus := ChatStatus.idle, pending := none },
          r.2)
      else (s, [])

/-- Running the controller over a list of events, keeping only the state
(effects are per-step observations). -/
def run (cfg : Config) (s : WidgetState) (es : List Event) : WidgetState :=
  es.foldl (fun st e => (step cfg st e).1) s

/-- A token is dead in a state when no outstanding operation carries it and
it is strictly below the fresh-token counter, so no future operation can
ever carry it again. -/
def tokenDead (t : Nat) (s : WidgetState) : Prop :=
  (∀ k, s.pending ≠ some ⟨t, k⟩) ∧ t < s.nextToken

/-- A concrete two-message history used to exercise the theorems. -/
def histAB : ConversationHistory :=
  ⟨[⟨Role.user, Source.chat, "a", 1⟩, ⟨Role.assistant, Source.chat, "b", 2⟩]⟩

/-- A concrete widget state: expanded and idle, two messages in history. -/
def sIdleAB : WidgetState :=
  { ui := UIState.ExpandedIdle
    consent := none
    history := histAB
    callStatus := CallStatus.idle
    chatStatus := ChatStatus.idle
    pending := none
    nextToken := 3
    channel := Source.chat }

/-- A concrete widget state: a chat send outstanding with token 2. -/
def sSending : WidgetState :=
  { ui := UIState.ExpandedChatSending
    consent := some true
    history := histAB
    callStatus := CallStatus.idle
    chatStatus := ChatStatus.sending
    pending := some ⟨2, OpKind.chat⟩
    nextToken := 3
    channel := Source.chat }

/-- A concrete widget state: a voice call outstanding with token 2. -/
def sVoicing : WidgetState :=
  { ui := UIState.ExpandedVoiceActive
    consent := some true
    history := histAB
    callStatus := CallStatus.active
    chatStatus := ChatStatus.idle
    pending := some ⟨2, OpKind.voice⟩
    nextToken := 3
    channel := Source.chat }

lemma tokenDead_step (cfg : Config) {t : Nat} {s : WidgetState}
    (h : tokenDead t s) (e : Event) : tokenDead t (step cfg s e).1 := by
  obtain ⟨hp, hn⟩ := h
  cases e <;> cases hs : cfg.size <;>
    simp only [step, stopVoiceOp, hs] <;> split_ifs <;>
    refine ⟨?_, ?_⟩ <;>
    first
      | exact hp
      | exact hn
      | exact Nat.lt_succ_of_lt hn
      | (intro k hEq
         injection hEq with h2
         injection h2 with h3 h4
         omega)
      | simp

lemma replyReceived_stale {cfg : Config} {s : WidgetState} {tok : Nat}
    {text : String} {ts : Nat}
    (h : s.pending ≠ some ⟨tok, OpKind.chat⟩) :
    step cfg s (Event.replyReceived tok text ts) = (s, []) := by
  simp only [step]
  rw [if_neg h]

lemma transcriptFinal_stale {cfg : Config} {s : WidgetState} {tok : Nat}
    {role : Role} {text : String} {ts : Nat}
    (h : s.pending ≠ some ⟨tok, OpKind.voice⟩) :
    step cfg s (Event.transcriptFinal tok role text ts) = (s, []) := by
  simp only [step]
  rw [if_neg h]

lemma tokenDead_run (cfg : Config) {t : Nat} {s : WidgetState}
    (h : tokenDead t s) (es : List Event) : tokenDead t (run cfg s es) := by
  induction es generalizing s with
  | nil => exact h
  | cons e es ih => exact ih (tokenDead_step cfg h e)

lemma isLive_eq_false {c : CallStatus} (h1 : c ≠ CallStatus.connecting)
    (h2 : c ≠ CallStatus.active) : c.isLive = false := by
  cases c <;> simp_all [CallStatus.isLive]

lemma exitIntermediate_ne (u : UIState) :
    u.exitIntermediate ≠ UIState.ExpandedVoiceActive ∧
    u.exitIntermediate ≠ UIState.ExpandedChatSending := by
  cases u <;> simp [UIState.exitIntermediate]

/-- Claim C1: for every sequence of `append(m)` calls starting from any
history, `snapshot()` returns the prior content followed by exactly the
appended messages in call order — no message lost, duplicated or
reordered. -/
theorem snapshot_appendAll (h : ConversationHistory) (ms : List Message) :
    (h.appendAll ms).snapshot = h.snapshot ++ ms := by
  induction ms generalizing h with
  | nil => simp [ConversationHistory.appendAll, ConversationHistory.snapshot]
  | cons m ms ih =>
      have step1 : h.appendAll (m :: ms) = (h.append m).appendAll ms := rfl
      rw [step1, ih]
      simp [ConversationHistory.append, ConversationHistory.snapshot]

/-- Claim C9: for every `ConversationHistory` value, regardless of prior
contents, `clear()` results in `snapshot()` returning the empty
sequence. -/
theorem snapshot_clear (h : ConversationHistory) :
    h.clear.snapshot = [] := rfl

/-- Claim C8: `VoiceSession.stop()` is idempotent — when the call status is
not `connecting` or `active`, `stop()` is a no-op both at the session level
(status unchanged) and at the controller level (`stopVoiceOp` leaves the
entire widget state, hence UI state and conversation history, unchanged and
issues no effect). -/
theorem stop_not_live_noop (v : VoiceSession) (s : WidgetState)
    (hv : v.status ≠ CallStatus.connecting ∧ v.status ≠ CallStatus.active)
    (hs : s.callStatus ≠ CallStatus.connecting ∧ s.callStatus ≠ CallStatus.active) :
    v.stop = v ∧ stopVoiceOp s = (s, []) := by
  constructor
  · unfold VoiceSession.stop
    rw [isLive_eq_false hv.1 hv.2]
    rfl
  · unfold stopVoiceOp
    rw [isLive_eq_false hs.1 hs.2]
    rfl

/-- Witness for C8 at a concrete ended session and collapsed widget. -/
theorem stop_not_live_noop_witness :
    VoiceSession.stop ⟨CallStatus.ending⟩ = ⟨CallStatus.ending⟩ ∧
    stopVoiceOp (initState none) = (initState none, []) :=
  stop_not_live_noop ⟨CallStatus.ending⟩ (initState none)
    ⟨by decide, by decide⟩ ⟨by decide, by decide⟩

/-- Claim C4: while a send is outstanding, a second `send` fails with
`BusyError` at the session boundary — an explicit rejection, neither queued
nor silently dropped — and the controller, whose `ExpandedChatSending`
state mirrors the `sending` status, changes nothing on a `sendChat` event
there: the whole widget state (in particular the history, which gains no
duplicate user message, and the outstanding operation, which is not
replaced or queued behind) is unchanged and no second send request is
issued. -/
theorem send_while_sending_busy (c : ChatSession) (cfg : Config)
    (s : WidgetState) (text : String) (ts : Nat)
    (hc : c.status = ChatStatus.sending)
    (hs : s.ui = UIState.ExpandedChatSending) :
    c.send text = Except.error WidgetError.BusyError ∧
    step cfg s (Event.sendChat text ts) = (s, []) := by
  constructor
  · unfold ChatSession.send
    rw [hc]
  · simp only [step]
    rw [if_neg]
    rintro ⟨h1, -⟩
    rw [hs] at h1
    exact absurd h1 (by decide)

/-- Witness for C4 at a concrete sending session and chat-sending widget. -/
theorem send_while_sending_busy_witness :
    ChatSession.send ⟨ChatStatus.sending⟩ "hi" = Except.error WidgetError.BusyError ∧
    step ⟨Mode.chat, Size.compact, false⟩ sSending (Event.sendChat "hi" 5)
      = (sSending, []) :=
  send_while_sending_busy ⟨ChatStatus.sending⟩ ⟨Mode.chat, Size.compact, false⟩
    sSending "hi" 5 rfl rfl

/-- Claim C6: in hybrid mode, switching the active channel from
`ExpandedIdle` leaves the controller in `ExpandedIdle` and empties the
`ConversationHistory`, whatever it contained before. -/
theorem switch_channel_clears (cfg : Config) (s : WidgetState)
    (h1 : cfg.mode = Mode.hybrid) (h2 : s.ui = UIState.ExpandedIdle) :
    (step cfg s Event.switchChannel).1.ui = UIState.ExpandedIdle ∧
    (step cfg s Event.switchChannel).1.history.snapshot = [] := by
  simp only [step]
  rw [if_pos ⟨h1, h2⟩]
  exact ⟨h2, rfl⟩

/-- Claim C10: with size `tiny` (voice only), clicking the floating button
toggles the voice call directly and never produces an expanded view: from
`Collapsed` the click leaves the UI state `Collapsed` (in particular it
reaches neither `ExpandedIdle` nor `ExpandedAwaitingConsent`, contrary to
the generic Collapsed→Expanded row of the transition table); when the call
is live it requests a stop, when it is not live and consent gating passes
it requests a start, and otherwise it does nothing. -/
theorem tiny_click_toggles (cfg : Config) (s : WidgetState)
    (h1 : cfg.size = Size.tiny) (h2 : s.ui = UIState.Collapsed) :
    (step cfg s Event.clickButton).1.ui = UIState.Collapsed ∧
    (s.callStatus.isLive = true →
      step cfg s Event.clickButton =
        ({ s with callStatus := CallStatus.idle, pending := none },
          [Effect.voiceStopRequested])) ∧
    (s.callStatus.isLive = false → consentOk cfg s →
      step cfg s Event.clickButton =
        ({ s with callStatus := CallStatus.connecting,
                  pending := some ⟨s.nextToken, OpKind.voice⟩,
                  nextToken := s.nextToken + 1 },
          [Effect.voiceStartRequested])) ∧
    (s.callStatus.isLive = false → ¬ consentOk cfg s →
      step cfg s Event.clickButton = (s, [])) := by
  have hstep : step cfg s Event.clickButton =
      (if s.callStatus.isLive then stopVoiceOp s
       else if consentOk cfg s then
         ({ s with callStatus := CallStatus.connecting,
                   pending := some ⟨s.nextToken, OpKind.voice⟩,
                   nextToken := s.nextToken + 1 },
           [Effect.voiceStartRequested])
       else (s, [])) := by
    simp only [step, h1]
  refine ⟨?_, ?_, ?_, ?_⟩
  · rw [hstep]
    split_ifs with hl hc
    · simp [stopVoiceOp, hl, h2]
    · exact h2
    · exact h2
  · intro hl
    rw [hstep, if_pos hl]
    simp [stopVoiceOp, hl]
  · intro hl hc
    rw [hstep, if_neg (by simp [hl]), if_pos hc]
  · intro hl hc
    rw [hstep, if_neg (by simp [hl]), if_neg hc]

/-- Witness for C10 at a concrete tiny-size configuration with an idle call
and granted consent. -/
theorem tiny_click_toggles_witness :
    (step ⟨Mode.voice, Size.tiny, false⟩ (initState none) Event.clickButton).1.ui
      = UIState.Collapsed ∧
    step ⟨Mode.voice, Size.tiny, false⟩ (initState none) Event.clickButton =
      ({ initState none with
           callStatus := CallStatus.connecting,
           pending := some ⟨0, OpKind.voice⟩,
           nextToken := 1 },
        [Effect.voiceStartRequested]) :=
  ⟨(tiny_click_toggles ⟨Mode.voice, Size.tiny, false⟩ (initState none) rfl rfl).1,
   (tiny_click_toggles ⟨Mode.voice, Size.tiny, false⟩ (initState none) rfl rfl).2.2.1
     rfl (Or.inl rfl)⟩

/-- Claim C2: with `requireConsent = true` and no stored consent, clicking
the floating button from `Collapsed` (in the sizes that have an expanded
view, i.e. not `tiny`) reaches `ExpandedAwaitingConsent`, not
`ExpandedIdle`; and in every controller state in which consent is not
granted, no event whatsoever can make the controller issue a
`VoiceSession.start` or `ChatSession.send` request. -/
theorem consent_gate (cfg : Config) (s : WidgetState) :
    (cfg.requireConsent = true → s.consent = none → s.ui = UIState.Collapsed →
      cfg.size ≠ Size.tiny →
      (step cfg s Event.clickButton).1.ui = UIState.ExpandedAwaitingConsent) ∧
    (cfg.requireConsent = true → s.consent ≠ some true → ∀ e,
      Effect.voiceStartRequested ∉ (step cfg s e).2 ∧
      ∀ t, Effect.chatSendRequested t ∉ (step cfg s e).2) := by
  constructor
  · intro hrc hcons hui hsz
    cases hs : cfg.size with
    | tiny => exact absurd hs hsz
    | compact => simp [step, hs, hui, hrc, hcons]
    | full => simp [step, hs, hui, hrc, hcons]
  · intro hrc hcons e
    have hno : ¬ consentOk cfg s := by
      rintro (h | h)
      · rw [hrc] at h
        cases h
      · exact hcons h
    cases e <;> cases hs : cfg.size <;>
      simp only [step, stopVoiceOp, hs] <;> split_ifs <;> simp_all

/-- Witness for C2: concrete consent-requiring hybrid widget, no stored
consent; the click expands to the consent prompt and a start-voice event
issues no start request. -/
theorem consent_gate_witness :
    (step ⟨Mode.hybrid, Size.compact, true⟩ (initState none)
        Event.clickButton).1.ui = UIState.ExpandedAwaitingConsent ∧
    Effect.voiceStartRequested ∉
      (step ⟨Mode.hybrid, Size.compact, true⟩ (initState none)
        Event.startVoice).2 :=
  ⟨(consent_gate ⟨Mode.hybrid, Size.compact, true⟩ (initState none)).1
      rfl rfl rfl (by decide),
   ((consent_gate ⟨Mode.hybrid, Size.compact, true⟩ (initState none)).2
      rfl (by decide) Event.startVoice).1⟩

/-- Witness for C6 at a concrete two-message history. -/
theorem switch_channel_clears_witness :
    (step ⟨Mode.hybrid, Size.compact, false⟩ sIdleAB
        Event.switchChannel).1.ui = UIState.ExpandedIdle ∧
    (step ⟨Mode.hybrid, Size.compact, false⟩ sIdleAB
        Event.switchChannel).1.history.snapshot = [] :=
  switch_channel_clears ⟨Mode.hybrid, Size.compact, false⟩ sIdleAB rfl rfl

/-- Claim C5: failures leave the history atomically consistent.  Chat: from
`ExpandedIdle` a send appends the user message and enters
`ExpandedChatSending`; when that send fails the controller returns to
`ExpandedIdle`, invokes `onError` exactly once (the effect list is exactly
one `onError`), the appended user message remains and no assistant message
is appended.  Voice: a `start()` that fails with `PermissionError` leaves
the history unchanged through both steps, invokes `onError` exactly once
and returns the controller to `ExpandedIdle`. -/
theorem failure_atomic (cfg : Config) (s : WidgetState) (text : String)
    (ts : Nat) (err : WidgetError) :
    (s.ui = UIState.ExpandedIdle → cfg.mode ≠ Mode.voice → consentOk cfg s →
      (step cfg s (Event.sendChat text ts)).1.ui = UIState.ExpandedChatSending ∧
      (step cfg s (Event.sendChat text ts)).1.history.snapshot
        = s.history.snapshot ++ [⟨Role.user, Source.chat, text, ts⟩] ∧
      (step cfg (step cfg s (Event.sendChat text ts)).1
          (Event.chatSendFailed s.nextToken err)).2 = [Effect.onError err] ∧
      (step cfg (step cfg s (Event.sendChat text ts)).1
          (Event.chatSendFailed s.nextToken err)).1.ui = UIState.ExpandedIdle ∧
      (step cfg (step cfg s (Event.sendChat text ts)).1
          (Event.chatSendFailed s.nextToken err)).1.history.snapshot
        = s.history.snapshot ++ [⟨Role.user, Source.chat, text, ts⟩]) ∧
    (s.ui = UIState.ExpandedIdle → cfg.mode ≠ Mode.chat → consentOk cfg s →
      (step cfg s Event.startVoice).1.ui = UIState.ExpandedVoiceActive ∧
      (step cfg s Event.startVoice).1.history = s.history ∧
      (step cfg (step cfg s Event.startVoice).1
          (Event.voiceErrored s.nextToken WidgetError.PermissionError)).2
        = [Effect.onError WidgetError.PermissionError] ∧
      (step cfg (step cfg s Event.startVoice).1
          (Event.voiceErrored s.nextToken WidgetError.PermissionError)).1.ui
        = UIState.ExpandedIdle ∧
      (step cfg (step cfg s Event.startVoice).1
          (Event.voiceErrored s.nextToken WidgetError.PermissionError)).1.history
        = s.history) := by
  constructor
  · intro hui hmode hcons
    have h1 : step cfg s (Event.sendChat text ts) =
        ({ s with ui := UIState.ExpandedChatSending,
                  chatStatus := ChatStatus.sending,
                  history := s.history.append ⟨Role.user, Source.chat, text, ts⟩,
                  pending := some ⟨s.nextToken, OpKind.chat⟩,
                  nextToken := s.nextToken + 1 },
          [Effect.chatSendRequested text]) := by
      simp only [step]
      rw [if_pos ⟨hui, hmode, hcons⟩]
    refine ⟨?_, ?_, ?_, ?_, ?_⟩ <;> rw [h1] <;>
      try simp [step, ConversationHistory.append, ConversationHistory.snapshot,
        UIState.exitIntermediate]
  · intro hui hmode hcons
    have h1 : step cfg s Event.startVoice =
        ({ s with ui := UIState.ExpandedVoiceActive,
                  callStatus := CallStatus.connecting,
                  pending := some ⟨s.nextToken, OpKind.voice⟩,
                  nextToken := s.nextToken + 1 },
          [Effect.voiceStartRequested]) := by
      simp only [step]
      rw [if_pos ⟨hui, hmode, hcons⟩]
    refine ⟨?_, ?_, ?_, ?_, ?_⟩ <;> rw [h1] <;>
      try simp [step, UIState.exitIntermediate]

/-- Witness for C5 at a concrete hybrid widget with consent granted. -/
theorem failure_atomic_witness :
    (step ⟨Mode.hybrid, Size.compact, false⟩ sIdleAB
        (Event.sendChat "hi" 9)).1.history.snapshot
      = histAB.snapshot ++ [⟨Role.user, Source.chat, "hi", 9⟩] ∧
    (step ⟨Mode.hybrid, Size.compact, false⟩
        (step ⟨Mode.hybrid, Size.compact, false⟩ sIdleAB
          (Event.sendChat "hi" 9)).1
        (Event.chatSendFailed 3 WidgetError.TimeoutError)).1.ui
      = UIState.ExpandedIdle ∧
    (step ⟨Mode.hybrid, Size.compact, false⟩
        (step ⟨Mode.hybrid, Size.compact, false⟩ sIdleAB
          Event.startVoice).1
        (Event.voiceErrored 3 WidgetError.PermissionError)).1.history
      = sIdleAB.history :=
  ⟨((failure_atomic ⟨Mode.hybrid, Size.compact, false⟩ sIdleAB "hi" 9
      WidgetError.TimeoutError).1 rfl (by decide) (Or.inl rfl)).2.1,
   ((failure_atomic ⟨Mode.hybrid, Size.compact, false⟩ sIdleAB "hi" 9
      WidgetError.TimeoutError).1 rfl (by decide) (Or.inl rfl)).2.2.2.1,
   ((failure_atomic ⟨Mode.hybrid, Size.compact, false⟩ sIdleAB "hi" 9
      WidgetError.TimeoutError).2 rfl (by decide) (Or.inl rfl)).2.2.2.2⟩

/-- Claim C3: every failure of the outstanding operation is surfaced
through `onError` and the controller's very next state is `ExpandedIdle`:
a `voiceErrored` event matching the outstanding voice operation in
`ExpandedVoiceActive`, and a `chatSendFailed` event matching the
outstanding chat send in `ExpandedChatSending`, each produce exactly one
`onError` effect and land in `ExpandedIdle`; moreover, after any event of
any kind that invokes `onError`, the controller is never left stuck in an
intermediate state (`ExpandedVoiceActive` or `ExpandedChatSending`). -/
theorem error_returns_idle (cfg : Config) (s : WidgetState) (tok : Nat)
    (err : WidgetError) :
    (s.ui = UIState.ExpandedVoiceActive →
      s.pending = some ⟨tok, OpKind.voice⟩ →
      (step cfg s (Event.voiceErrored tok err)).1.ui = UIState.ExpandedIdle ∧
      (step cfg s (Event.voiceErrored tok err)).2 = [Effect.onError err]) ∧
    (s.ui = UIState.ExpandedChatSending →
      s.pending = some ⟨tok, OpKind.chat⟩ →
      (step cfg s (Event.chatSendFailed tok err)).1.ui = UIState.ExpandedIdle ∧
      (step cfg s (Event.chatSendFailed tok err)).2 = [Effect.onError err]) ∧
    (∀ e err2, Effect.onError err2 ∈ (step cfg s e).2 →
      (step cfg s e).1.ui ≠ UIState.ExpandedVoiceActive ∧
      (step cfg s e).1.ui ≠ UIState.ExpandedChatSending) := by
  refine ⟨?_, ?_, ?_⟩
  · intro hui hp
    simp only [step]
    rw [if_pos hp]
    simp [hui, UIState.exitIntermediate]
  · intro hui hp
    simp only [step]
    rw [if_pos hp]
    simp [hui, UIState.exitIntermediate]
  · intro e err2
    cases e <;> cases hs : cfg.size <;>
      simp only [step, stopVoiceOp, hs] <;> split_ifs <;>
      (intro hmem
       first
         | exact exitIntermediate_ne s.ui
         | exact absurd hmem (by simp))

/-- Witness for C3 at a concrete chat-sending state whose send fails. -/
theorem error_returns_idle_witness :
    (step ⟨Mode.chat, Size.compact, false⟩ sSending
        (Event.chatSendFailed 2 WidgetError.ConnectionError)).1.ui
      = UIState.ExpandedIdle ∧
    (step ⟨Mode.chat, Size.compact, false⟩ sSending
        (Event.chatSendFailed 2 WidgetError.ConnectionError)).2
      = [Effect.onError WidgetError.ConnectionError] :=
  (error_returns_idle ⟨Mode.chat, Size.compact, false⟩ sSending 2
      WidgetError.ConnectionError).2.1 rfl rfl

/-- Claim C7: closing or resetting the widget while an operation is
outstanding requests a stop of the live voice call (when there is one) and
cancels the outstanding operation; a completion belonging to the cancelled
operation — an assistant reply (`replyReceived`) or a transcript event
(`transcriptFinal`) — that arrives any number of steps later is discarded:
in every subsequent state it appends nothing to the `ConversationHistory`.
The hypothesis `tok < s.nextToken` holds in every state the controller can
actually reach, because tokens are handed out from the fresh counter
(`tokenDead_step` shows the property is preserved by every step). -/
theorem cancel_discards (cfg : Config) (s : WidgetState) (tok : Nat)
    (kind : OpKind) (e : Event)
    (he : e = Event.clickReset ∨ e = Event.clickClose)
    (hp : s.pending = some ⟨tok, kind⟩) (hn : tok < s.nextToken)
    (hui : s.ui.isExpanded = true)
    (es : List Event) (text : String) (ts : Nat) (role : Role) :
    (s.callStatus.isLive = true → Effect.voiceStopRequested ∈ (step cfg s e).2) ∧
    (step cfg s e).1.pending = none ∧
    (step cfg (run cfg (step cfg s e).1 es)
        (Event.replyReceived tok text ts)).1.history
      = (run cfg (step cfg s e).1 es).history ∧
    (step cfg (run cfg (step cfg s e).1 es)
        (Event.transcriptFinal tok role text ts)).1.history
      = (run cfg (step cfg s e).1 es).history := by
  have hmain : ∀ e', e' = Event.clickReset ∨ e' = Event.clickClose →
      ((step cfg s e').2 = (stopVoiceOp s).2 ∧
        (step cfg s e').1.pending = none ∧
        (step cfg s e').1.nextToken = s.nextToken) := by
    rintro e' (rfl | rfl) <;>
      (simp only [step]
       rw [if_pos hui]
       refine ⟨rfl, rfl, ?_⟩
       simp only [stopVoiceOp]
       split_ifs <;> rfl)
  obtain ⟨heff, hpnone, hnext⟩ := hmain e he
  have hdead : tokenDead tok (step cfg s e).1 := by
    refine ⟨?_, ?_⟩
    · intro k
      rw [hpnone]
      simp
    · rw [hnext]
      exact hn
  have hdead2 := tokenDead_run cfg hdead es
  refine ⟨?_, hpnone, ?_, ?_⟩
  · intro hl
    rw [heff]
    simp [stopVoiceOp, hl]
  · rw [replyReceived_stale (hdead2.1 OpKind.chat)]
  · rw [transcriptFinal_stale (hdead2.1 OpKind.voice)]

/-- Witness for C7: closing the widget during a live voice call with token
2 stops the call, and a stale reply/transcript for token 2 arriving
afterwards appends nothing. -/
theorem cancel_discards_witness :
    (Effect.voiceStopRequested ∈
      (step ⟨Mode.voice, Size.compact, false⟩ sVoicing Event.clickClose).2) ∧
    (step ⟨Mode.voice, Size.compact, false⟩ sVoicing Event.clickClose).1.pending
      = none ∧
    (step ⟨Mode.voice, Size.compact, false⟩
        (run ⟨Mode.voice, Size.compact, false⟩
          (step ⟨Mode.voice, Size.compact, false⟩ sVoicing Event.clickClose).1 [])
        (Event.replyReceived 2 "late" 7)).1.history
      = (run ⟨Mode.voice, Size.compact, false⟩
          (step ⟨Mode.voice, Size.compact, false⟩ sVoicing Event.clickClose).1 []).history ∧
    (step ⟨Mode.voice, Size.compact, false⟩
        (run ⟨Mode.voice, Size.compact, false⟩
          (step ⟨Mode.voice, Size.compact, false⟩ sVoicing Event.clickClose).1 [])
        (Event.transcriptFinal 2 Role.assistant "late" 7)).1.history
      = (run ⟨Mode.voice, Size.compact, false⟩
          (step ⟨Mode.voice, Size.compact, false⟩ sVoicing Event.clickClose).1 []).history := by
  have h := cancel_discards ⟨Mode.voice, Size.compact, false⟩ sVoicing 2
    OpKind.voice Event.clickClose (Or.inr rfl) rfl (by decide) rfl
    [] "late" 7 Role.assistant
  exact ⟨h.1 rfl, h.2.1, h.2.2.1, h.2.2.2⟩

end VapiWidget
